/-
Verification of the predictous execution substrate against its design
specification.

The definitions below are a shallow embedding of the Python sources:

* `src/backend/sandbox/cost_proxy.py` — `CostTracker` (the cost ledger) and
  `CostProxyHandler._forward_request` (the interception proxy step);
* `src/predictor/predictor.py` — the prediction orchestrator
  (`predict_champion`, `predict_council`);
* `src/sandbox/manager.py` — `SandboxManager.run_agent` (workspace setup,
  container execution, cost attachment and ledger release).

Monetary costs (Python `float`) are modelled as exact rationals `ℚ`;
Python dicts keyed by `run_id` are modelled as association lists with
string keys; the per-run service-cost dict (which always holds exactly
the keys `"chutes"`, `"desearch"`, `"other"`) is modelled as a record
with three rational fields.
-/
import Mathlib

namespace Predictous

/-! ### Service classes (`SERVICE_CHUTES`, `SERVICE_DESEARCH`, `SERVICE_OTHER`) -/

inductive Service where
  | chutes
  | desearch
  | other
deriving DecidableEq, Repr

/-- The string constant each service class stands for in the Python code. -/
def Service.name : Service → String
  | .chutes => "chutes"
  | .desearch => "desearch"
  | .other => "other"

/-- The per-run cost dict `{"chutes": c, "desearch": d, "other": o}`
created by `CostTracker._init_run` and mutated by `CostTracker.add_cost`. -/
structure ServiceCosts where
  chutes : ℚ
  desearch : ℚ
  other : ℚ
deriving DecidableEq, Repr

/-- The all-zero dict `_init_run` installs for a fresh run. -/
def ServiceCosts.zero : ServiceCosts := ⟨0, 0, 0⟩

/-- `costs.get(service, 0.0)` on the per-run dict (the key always exists). -/
def ServiceCosts.get : ServiceCosts → Service → ℚ
  | sc, .chutes => sc.chutes
  | sc, .desearch => sc.desearch
  | sc, .other => sc.other

/-- `costs[service] = v` on the per-run dict. -/
def ServiceCosts.set : ServiceCosts → Service → ℚ → ServiceCosts
  | sc, .chutes, v => { sc with chutes := v }
  | sc, .desearch, v => { sc with desearch := v }
  | sc, .other, v => { sc with other := v }

/-- `sum(costs.values())` used by `CostTracker.get_cost` with no service. -/
def ServiceCosts.total (sc : ServiceCosts) : ℚ := sc.chutes + sc.desearch + sc.other

/-! ### The `_costs` dict: an association list from run_id to `ServiceCosts` -/

/-- Lookup of `run_id` in the `_costs` dict (`self._costs[run_id]` /
`run_id in self._costs`). -/
def findRun : List (String × ServiceCosts) → String → Option ServiceCosts
  | [], _ => none
  | (k, v) :: rest, r => if k = r then some v else findRun rest r

/-- Replacement of the value stored at an existing key
(`self._costs[run_id][service] = new_total` rebinds the per-run dict). -/
def setRun : List (String × ServiceCosts) → String → ServiceCosts → List (String × ServiceCosts)
  | [], _, _ => []
  | (k, v) :: rest, r, sc => if k = r then (k, sc) :: rest else (k, v) :: setRun rest r sc

/-- Removal of a key (`self._costs.pop(run_id, None)`). -/
def removeRun : List (String × ServiceCosts) → String → List (String × ServiceCosts)
  | [], _ => []
  | (k, v) :: rest, r => if k = r then removeRun rest r else (k, v) :: removeRun rest r

/-! ### `CostTracker` (`src/backend/sandbox/cost_proxy.py`, lines 28-121) -/

structure CostTracker where
  chutes_budget : ℚ
  desearch_budget : ℚ
  costs : List (String × ServiceCosts)
deriving DecidableEq, Repr

namespace CostTracker

/-- `CostTracker.__init__`: budgets set, `_costs` empty. -/
def init (chutes_budget desearch_budget : ℚ) : CostTracker :=
  ⟨chutes_budget, desearch_budget, []⟩

/-- `CostTracker._init_run`: create the all-zero entry if the run is unknown. -/
def initRun (t : CostTracker) (run_id : String) : CostTracker :=
  if (findRun t.costs run_id).isSome then t
  else { t with costs := (run_id, ServiceCosts.zero) :: t.costs }

/-- `CostTracker.add_cost`: add cost for a run and service, returning the new
service total together with the updated tracker state. -/
def add_cost (t : CostTracker) (run_id : String) (service : Service) (cost : ℚ) :
    ℚ × CostTracker :=
  let t1 := t.initRun run_id
  let sc := (findRun t1.costs run_id).getD ServiceCosts.zero
  let new_total := sc.get service + cost
  (new_total, { t1 with costs := setRun t1.costs run_id (sc.set service new_total) })

/-- `CostTracker.get_cost`: per-service cost, or the sum over the three
services when no service is given; `0.0` for an unknown run. -/
def get_cost (t : CostTracker) (run_id : String) (service : Option Service) : ℚ :=
  match findRun t.costs run_id with
  | none => 0
  | some sc =>
    match service with
    | none => sc.total
    | some s => sc.get s

/-- `CostTracker.get_costs_by_service`. -/
def get_costs_by_service (t : CostTracker) (run_id : String) : ServiceCosts :=
  (findRun t.costs run_id).getD ServiceCosts.zero

/-- `CostTracker.is_over_budget`: with `service == "chutes"` or
`service == "desearch"` compare that service's cost with its budget; in every
other case (service `"other"` or `None`) fall through to the `else` branch,
which checks whether chutes or desearch is over.  An unknown run returns
`False`. -/
def is_over_budget (t : CostTracker) (run_id : String) (service : Option Service) : Bool :=
  match findRun t.costs run_id with
  | none => false
  | some sc =>
    match service with
    | some .chutes => sc.chutes > t.chutes_budget
    | some .desearch => sc.desearch > t.desearch_budget
    | _ => sc.chutes > t.chutes_budget || sc.desearch > t.desearch_budget

/-- One side of the dict returned by `CostTracker.get_budget_status`. -/
structure ServiceStatus where
  cost : ℚ
  budget : ℚ
  over : Bool
deriving DecidableEq, Repr

/-- The dict returned by `CostTracker.get_budget_status` (keys `"chutes"` and
`"desearch"` only). -/
structure BudgetStatus where
  chutes : ServiceStatus
  desearch : ServiceStatus
deriving DecidableEq, Repr

/-- `CostTracker.get_budget_status`. -/
def get_budget_status (t : CostTracker) (run_id : String) : BudgetStatus :=
  let sc := (findRun t.costs run_id).getD ServiceCosts.zero
  { chutes := ⟨sc.chutes, t.chutes_budget, decide (sc.chutes > t.chutes_budget)⟩
    desearch := ⟨sc.desearch, t.desearch_budget, decide (sc.desearch > t.desearch_budget)⟩ }

/-- `CostTracker.clear`: drop the entry for a run. -/
def clear (t : CostTracker) (run_id : String) : CostTracker :=
  { t with costs := removeRun t.costs run_id }

end CostTracker

/-! ### Basic lookup/update lemmas -/

theorem findRun_setRun_self {l : List (String × ServiceCosts)} {r : String} {sc : ServiceCosts}
    (h : (findRun l r).isSome) : findRun (setRun l r sc) r = some sc := by
  induction l with
  | nil => simp [findRun] at h
  | cons p rest ih =>
    obtain ⟨k, v⟩ := p
    by_cases hk : k = r
    · simp [findRun, setRun, hk]
    · simp only [findRun, setRun, if_neg hk]
      exact ih (by simpa [findRun, if_neg hk] using h)

theorem findRun_setRun_other {l : List (String × ServiceCosts)} {r r' : String}
    {sc : ServiceCosts} (h : r ≠ r') : findRun (setRun l r sc) r' = findRun l r' := by
  induction l with
  | nil => simp [findRun, setRun]
  | cons p rest ih =>
    obtain ⟨k, v⟩ := p
    by_cases hk : k = r
    · subst hk
      simp [findRun, setRun, if_neg h]
    · simp only [setRun, if_neg hk, findRun]
      by_cases hk' : k = r'
      · simp [hk']
      · simp [if_neg hk', ih]

theorem findRun_removeRun_self (l : List (String × ServiceCosts)) (r : String) :
    findRun (removeRun l r) r = none := by
  induction l with
  | nil => simp [findRun, removeRun]
  | cons p rest ih =>
    obtain ⟨k, v⟩ := p
    by_cases hk : k = r
    · simpa [removeRun, hk] using ih
    · simp [removeRun, if_neg hk, findRun, ih]

theorem findRun_removeRun_other {l : List (String × ServiceCosts)} {r r' : String}
    (h : r ≠ r') : findRun (removeRun l r) r' = findRun l r' := by
  induction l with
  | nil => simp [findRun, removeRun]
  | cons p rest ih =>
    obtain ⟨k, v⟩ := p
    by_cases hk : k = r
    · subst hk
      simp [removeRun, findRun, if_neg h, ih]
    · simp only [removeRun, if_neg hk, findRun]
      by_cases hk' : k = r'
      · simp [hk']
      · simp [if_neg hk', ih]

theorem findRun_initRun_self (t : CostTracker) (r : String) :
    findRun (t.initRun r).costs r = some ((findRun t.costs r).getD ServiceCosts.zero) := by
  unfold CostTracker.initRun
  cases h : findRun t.costs r with
  | none => simp [h, findRun]
  | some sc => simp [h]

theorem findRun_initRun_other (t : CostTracker) {r r' : String} (h : r ≠ r') :
    findRun (t.initRun r).costs r' = findRun t.costs r' := by
  unfold CostTracker.initRun
  cases hf : findRun t.costs r with
  | none => simp [hf, findRun, if_neg h]
  | some sc => simp [hf]

theorem ServiceCosts.get_set_self (sc : ServiceCosts) (s : Service) (v : ℚ) :
    (sc.set s v).get s = v := by
  cases s <;> rfl

theorem ServiceCosts.get_set_other (sc : ServiceCosts) {s s' : Service} (v : ℚ)
    (h : s ≠ s') : (sc.set s v).get s' = sc.get s' := by
  cases s <;> cases s' <;> first | rfl | exact absurd rfl h

/-! ### Derived ledger lemmas -/

namespace CostTracker

theorem get_cost_add_cost_same (t : CostTracker) (r : String) (s : Service) (a : ℚ) :
    (t.add_cost r s a).2.get_cost r (some s) = t.get_cost r (some s) + a := by
  unfold add_cost get_cost
  have hfind := findRun_initRun_self t r
  rw [findRun_setRun_self (by rw [hfind]; rfl)]
  rw [hfind]
  cases h : findRun t.costs r with
  | none => simp [h, ServiceCosts.get_set_self, ServiceCosts.zero, ServiceCosts.get] at *
            cases s <;> simp [ServiceCosts.get, ServiceCosts.set]
  | some sc => simp [h, ServiceCosts.get_set_self]

theorem get_cost_add_cost_other_service (t : CostTracker) (r : String) {s s' : Service}
    (a : ℚ) (h : s ≠ s') :
    (t.add_cost r s a).2.get_cost r (some s') = t.get_cost r (some s') := by
  unfold add_cost get_cost
  have hfind := findRun_initRun_self t r
  rw [findRun_setRun_self (by rw [hfind]; rfl)]
  rw [hfind]
  cases hf : findRun t.costs r with
  | none =>
      simp only [hf, Option.getD_none, Option.getD_some]
      rw [ServiceCosts.get_set_other _ _ h]
      cases s' <;> rfl
  | some sc =>
      simp only [hf, Option.getD_some]
      rw [ServiceCosts.get_set_other _ _ h]

theorem get_cost_add_cost_other_run (t : CostTracker) {r r' : String} (s : Service)
    (a : ℚ) (h : r ≠ r') :
    (t.add_cost r s a).2.get_cost r' so = t.get_cost r' so := by
  unfold add_cost get_cost
  rw [findRun_setRun_other h, findRun_initRun_other t h]

theorem add_cost_fst (t : CostTracker) (r : String) (s : Service) (a : ℚ) :
    (t.add_cost r s a).1 = t.get_cost r (some s) + a := by
  simp only [add_cost, get_cost]
  rw [findRun_initRun_self t r]
  cases h : findRun t.costs r with
  | none => simp [h]; cases s <;> rfl
  | some sc => simp [h]

theorem get_cost_clear_self (t : CostTracker) (r : String) (so : Option Service) :
    (t.clear r).get_cost r so = 0 := by
  unfold clear get_cost
  rw [findRun_removeRun_self]

theorem is_over_clear_self (t : CostTracker) (r : String) (so : Option Service) :
    (t.clear r).is_over_budget r so = false := by
  unfold clear is_over_budget
  rw [findRun_removeRun_self]

theorem budgets_add_cost (t : CostTracker) (r : String) (s : Service) (a : ℚ) :
    (t.add_cost r s a).2.chutes_budget = t.chutes_budget ∧
      (t.add_cost r s a).2.desearch_budget = t.desearch_budget := by
  unfold add_cost initRun
  by_cases h : (findRun t.costs r).isSome <;> simp [h]

theorem budgets_clear (t : CostTracker) (r : String) :
    (t.clear r).chutes_budget = t.chutes_budget ∧
      (t.clear r).desearch_budget = t.desearch_budget := ⟨rfl, rfl⟩

/-- A run is known exactly when its entry exists. -/
def known (t : CostTracker) (run_id : String) : Bool := (findRun t.costs run_id).isSome

theorem known_add_cost_self (t : CostTracker) (r : String) (s : Service) (a : ℚ) :
    (t.add_cost r s a).2.known r = true := by
  unfold known add_cost
  rw [findRun_setRun_self (by rw [findRun_initRun_self]; rfl)]
  rfl

theorem known_add_cost_other (t : CostTracker) {r r' : String} (s : Service) (a : ℚ)
    (h : r ≠ r') : (t.add_cost r s a).2.known r' = t.known r' := by
  unfold known add_cost
  rw [findRun_setRun_other h, findRun_initRun_other t h]

/-- `is_over_budget` expressed through `known` and `get_cost`: this is the
full behavioural characterization of the Python method. -/
theorem is_over_budget_spec (t : CostTracker) (r : String) :
    (t.is_over_budget r (some .chutes)
        = (t.known r && decide (t.get_cost r (some .chutes) > t.chutes_budget))) ∧
    (t.is_over_budget r (some .desearch)
        = (t.known r && decide (t.get_cost r (some .desearch) > t.desearch_budget))) ∧
    (t.is_over_budget r (some .other)
        = (t.known r && (decide (t.get_cost r (some .chutes) > t.chutes_budget)
            || decide (t.get_cost r (some .desearch) > t.desearch_budget)))) ∧
    (t.is_over_budget r none
        = (t.known r && (decide (t.get_cost r (some .chutes) > t.chutes_budget)
            || decide (t.get_cost r (some .desearch) > t.desearch_budget)))) := by
  unfold is_over_budget known get_cost
  cases h : findRun t.costs r with
  | none => simp
  | some sc => simp [ServiceCosts.get]

end CostTracker

/-! ### Monotonicity of the ledger under charges -/

namespace CostTracker

theorem get_cost_le_add_cost (t : CostTracker) (r r' : String) (s s' : Service)
    {a : ℚ} (ha : 0 ≤ a) :
    t.get_cost r (some s) ≤ (t.add_cost r' s' a).2.get_cost r (some s) := by
  by_cases hr : r' = r
  · subst hr
    by_cases hs : s' = s
    · subst hs
      rw [get_cost_add_cost_same]
      linarith
    · rw [get_cost_add_cost_other_service t r' a hs]
  · rw [get_cost_add_cost_other_run t s' a hr]

theorem known_le_add_cost (t : CostTracker) (r r' : String) (s' : Service) (a : ℚ)
    (h : t.known r = true) : (t.add_cost r' s' a).2.known r = true := by
  by_cases hr : r' = r
  · subst hr; exact known_add_cost_self t r' s' a
  · rw [known_add_cost_other t s' a hr]; exact h

theorem is_over_budget_mono_add (t : CostTracker) (r : String) (so : Option Service)
    (r' : String) (s' : Service) {a : ℚ} (ha : 0 ≤ a)
    (h : t.is_over_budget r so = true) :
    (t.add_cost r' s' a).2.is_over_budget r so = true := by
  set t' := (t.add_cost r' s' a).2 with ht'
  have hbud := t.budgets_add_cost r' s' a
  have hchutes := t.get_cost_le_add_cost r r' Service.chutes s' ha
  have hdesearch := t.get_cost_le_add_cost r r' Service.desearch s' ha
  rw [← ht'] at hbud hchutes hdesearch
  have hspec := t.is_over_budget_spec r
  have hspec' := t'.is_over_budget_spec r
  rcases so with _ | s
  · rw [hspec.2.2.2] at h
    rw [hspec'.2.2.2, hbud.1, hbud.2]
    simp only [Bool.and_eq_true, Bool.or_eq_true, decide_eq_true_eq] at h ⊢
    exact ⟨known_le_add_cost t r r' s' a h.1,
      h.2.elim (fun hlt => Or.inl (lt_of_lt_of_le hlt hchutes))
        (fun hlt => Or.inr (lt_of_lt_of_le hlt hdesearch))⟩
  · cases s with
    | chutes =>
      rw [hspec.1] at h
      rw [hspec'.1, hbud.1]
      simp only [Bool.and_eq_true, decide_eq_true_eq] at h ⊢
      exact ⟨known_le_add_cost t r r' s' a h.1, lt_of_lt_of_le h.2 hchutes⟩
    | desearch =>
      rw [hspec.2.1] at h
      rw [hspec'.2.1, hbud.2]
      simp only [Bool.and_eq_true, decide_eq_true_eq] at h ⊢
      exact ⟨known_le_add_cost t r r' s' a h.1, lt_of_lt_of_le h.2 hdesearch⟩
    | other =>
      rw [hspec.2.2.1] at h
      rw [hspec'.2.2.1, hbud.1, hbud.2]
      simp only [Bool.and_eq_true, Bool.or_eq_true, decide_eq_true_eq] at h ⊢
      exact ⟨known_le_add_cost t r r' s' a h.1,
        h.2.elim (fun hlt => Or.inl (lt_of_lt_of_le hlt hchutes))
          (fun hlt => Or.inr (lt_of_lt_of_le hlt hdesearch))⟩

theorem is_over_clear_other (t : CostTracker) {r r' : String} (h : r' ≠ r)
    (so : Option Service) :
    (t.clear r').is_over_budget r so = t.is_over_budget r so := by
  unfold clear is_over_budget
  rw [findRun_removeRun_other h]

end CostTracker

/-! ### Sequences of ledger operations

The mutating ledger operations reachable from the proxy handler and the
sandbox manager are `CostTracker.add_cost` (a charge) and `CostTracker.clear`
(the release of a run); every other `CostTracker` method is read-only. -/

inductive LedgerOp where
  | charge (run_id : String) (service : Service) (amount : ℚ)
  | release (run_id : String)
deriving DecidableEq

def LedgerOp.apply (t : CostTracker) : LedgerOp → CostTracker
  | .charge r s a => (t.add_cost r s a).2
  | .release r => t.clear r

def applyOps (t : CostTracker) (ops : List LedgerOp) : CostTracker :=
  ops.foldl LedgerOp.apply t

/-- The precondition the spec puts on charges: `amount ≥ 0`. -/
def LedgerOp.nonneg : LedgerOp → Prop
  | .charge _ _ a => 0 ≤ a
  | .release _ => True

/-- Repeated charging of one (run, service) pair
(`CostTracker.add_cost` iterated, keeping only the state). -/
def charge_list (t : CostTracker) (r : String) (s : Service) (l : List ℚ) : CostTracker :=
  l.foldl (fun acc a => (acc.add_cost r s a).2) t

theorem get_cost_charge_list (t : CostTracker) (r : String) (s : Service) (l : List ℚ) :
    (charge_list t r s l).get_cost r (some s) = t.get_cost r (some s) + l.sum := by
  induction l generalizing t with
  | nil => simp [charge_list]
  | cons a rest ih =>
    have : charge_list t r s (a :: rest) = charge_list (t.add_cost r s a).2 r s rest := rfl
    rw [this, ih, CostTracker.get_cost_add_cost_same, List.sum_cons]
    ring

/-- C6: for every run_id `r` and service `s`, after any sequence of
`charge(r, s, aᵢ)` calls with each `aᵢ ≥ 0` starting from a fresh tracker,
`total(r, s)` equals the sum of the `aᵢ`; each charge returns the new
per-service running total; and `total(r)` without a service equals the sum of
`total(r, s)` over all services. -/
theorem ledger_additivity :
    (∀ (cb db : ℚ) (r : String) (s : Service) (l : List ℚ), (∀ a ∈ l, 0 ≤ a) →
      (charge_list (CostTracker.init cb db) r s l).get_cost r (some s) = l.sum) ∧
    (∀ (t : CostTracker) (r : String) (s : Service) (a : ℚ),
      (t.add_cost r s a).1 = (t.add_cost r s a).2.get_cost r (some s)) ∧
    (∀ (t : CostTracker) (r : String),
      t.get_cost r none = t.get_cost r (some .chutes) + t.get_cost r (some .desearch)
        + t.get_cost r (some .other)) := by
  refine ⟨fun cb db r s l _ => ?_, fun t r s a => ?_, fun t r => ?_⟩
  · rw [get_cost_charge_list]
    simp [CostTracker.init, CostTracker.get_cost, findRun]
  · rw [CostTracker.add_cost_fst, CostTracker.get_cost_add_cost_same]
  · unfold CostTracker.get_cost
    cases h : findRun t.costs r with
    | none => norm_num
    | some sc => simp [ServiceCosts.total, ServiceCosts.get]

/-- Witness for `ledger_additivity` at concrete inputs. -/
theorem ledger_additivity_witness :
    (charge_list (CostTracker.init 20 100) "run-1" .chutes
        [5, 10]).get_cost "run-1" (some .chutes) = 15 := by
  have h := ledger_additivity.1 20 100 "run-1" .chutes [5, 10]
    (by intro a ha; simp only [List.mem_cons, List.not_mem_nil, or_false] at ha
        rcases ha with rfl | rfl <;> norm_num)
  rw [h]; norm_num

/-- C7: under nonnegative charge amounts, once `is_over(r, s)` is true it
stays true across every further ledger operation other than `release(r)`, and
`release(r)` resets it to false. -/
theorem budget_monotonicity :
    (∀ (t : CostTracker) (r : String) (so : Option Service) (ops : List LedgerOp),
      t.is_over_budget r so = true →
      (∀ op ∈ ops, op.nonneg ∧ op ≠ .release r) →
      (applyOps t ops).is_over_budget r so = true) ∧
    (∀ (t : CostTracker) (r : String) (so : Option Service),
      (t.clear r).is_over_budget r so = false) := by
  constructor
  · intro t r so ops
    induction ops generalizing t with
    | nil => intro h _; exact h
    | cons op rest ih =>
      intro h hops
      have hop := hops op (List.mem_cons_self op rest)
      have hrest : ∀ o ∈ rest, o.nonneg ∧ o ≠ .release r :=
        fun o ho => hops o (List.mem_cons_of_mem op ho)
      have hstep : (LedgerOp.apply t op).is_over_budget r so = true := by
        cases op with
        | charge r' s' a => exact t.is_over_budget_mono_add r so r' s' hop.1 h
        | release r' =>
          have hne : r' ≠ r := fun he => hop.2 (by rw [he])
          rw [LedgerOp.apply, t.is_over_clear_other hne]
          exact h
      exact ih (LedgerOp.apply t op) hstep hrest
  · exact CostTracker.is_over_clear_self

/-- Witness for `budget_monotonicity`: a run over its chutes budget stays over
across a further charge on the same run, a charge on another run, and the
release of that other run; releasing the run itself resets the flag. -/
theorem budget_monotonicity_witness :
    ((applyOps ((CostTracker.init 2 10).add_cost "r" .chutes 3).2
        [.charge "r" .desearch 1, .charge "x" .chutes 5, .release "x"])
      |>.is_over_budget "r" (some .chutes)) = true ∧
    ((((CostTracker.init 2 10).add_cost "r" .chutes 3).2.clear "r")
      |>.is_over_budget "r" (some .chutes)) = false := by
  constructor
  · refine budget_monotonicity.1 _ "r" (some .chutes) _ ?_ ?_
    · norm_num [CostTracker.init, CostTracker.add_cost, CostTracker.initRun,
        CostTracker.is_over_budget, findRun, setRun, ServiceCosts.zero,
        ServiceCosts.get, ServiceCosts.set]
    · intro op hop
      simp only [List.mem_cons, List.not_mem_nil, or_false] at hop
      rcases hop with rfl | rfl | rfl
      · exact ⟨by norm_num [LedgerOp.nonneg], by simp⟩
      · exact ⟨by norm_num [LedgerOp.nonneg], by simp⟩
      · exact ⟨trivial, by simp⟩
  · exact budget_monotonicity.2 _ "r" (some .chutes)

/-- C4 counterexample: with the chutes cost over its budget, `is_over` with
the explicit service class `other` reports `true` even though the accumulated
cost for service `other` is `0` — which strictly exceeds no positive budget.
So "with an explicit service class, true iff that service's accumulated cost
strictly exceeds that service's budget" fails for service `other`. -/
theorem is_over_budget_other_counterexample :
    (((CostTracker.init 2 10).add_cost "r" .chutes 3).2.is_over_budget
        "r" (some .other) = true) ∧
    (((CostTracker.init 2 10).add_cost "r" .chutes 3).2.get_cost
        "r" (some .other) = 0) := by
  constructor <;>
    norm_num [CostTracker.init, CostTracker.add_cost, CostTracker.initRun,
      CostTracker.is_over_budget, CostTracker.get_cost, findRun, setRun,
      ServiceCosts.zero, ServiceCosts.get, ServiceCosts.set]

/-- C4 amended: `is_over(run_id, service)` with explicit service `chutes` or
`desearch` is true iff that service's accumulated cost strictly exceeds its
budget; with explicit service `other` — which has no budget of its own — and
with no service it is true iff the chutes or the desearch cost exceeds its
budget; an unknown run_id always yields false. -/
theorem is_over_budget_characterization (t : CostTracker) (r : String) :
    (t.is_over_budget r (some .chutes)
        = (t.known r && decide (t.get_cost r (some .chutes) > t.chutes_budget))) ∧
    (t.is_over_budget r (some .desearch)
        = (t.known r && decide (t.get_cost r (some .desearch) > t.desearch_budget))) ∧
    (t.is_over_budget r (some .other)
        = (t.known r && (decide (t.get_cost r (some .chutes) > t.chutes_budget)
            || decide (t.get_cost r (some .desearch) > t.desearch_budget)))) ∧
    (t.is_over_budget r none
        = (t.known r && (decide (t.get_cost r (some .chutes) > t.chutes_budget)
            || decide (t.get_cost r (some .desearch) > t.desearch_budget)))) ∧
    (t.known r = false → ∀ so : Option Service, t.is_over_budget r so = false) := by
  refine ⟨(t.is_over_budget_spec r).1, (t.is_over_budget_spec r).2.1,
    (t.is_over_budget_spec r).2.2.1, (t.is_over_budget_spec r).2.2.2, ?_⟩
  intro hk so
  unfold CostTracker.is_over_budget
  unfold CostTracker.known at hk
  cases h : findRun t.costs r with
  | none => rfl
  | some sc => rw [h] at hk; simp at hk

/-! ### Interception proxy (`CostProxyHandler`, `src/backend/sandbox/cost_proxy.py`)

The handler is modelled as one pure step per inbound request.  The JSON
decoding performed by `_extract_run_id` and `_extract_cost` is abstracted
into the possible outcomes of `json.loads` on the request and response
bodies; `run_id` values are modelled as strings (the only shape the rest of
the system produces). -/

/-- Boolean prefix test on character lists. -/
def leadingMatch : List Char → List Char → Bool
  | [], _ => true
  | _ :: _, [] => false
  | p :: ps, c :: cs => p = c && leadingMatch ps cs

/-- Boolean containment of `pat` in `s` (character lists). -/
def listContains : List Char → List Char → Bool
  | s, pat =>
    if leadingMatch pat s then true
    else match s with
      | [] => false
      | _ :: rest => listContains rest pat

/-- Python's `pat in s` substring test. -/
def strContains (s pat : String) : Bool := listContains s.toList pat.toList

/-- `CostProxyHandler._detect_service`: classify a URL path by substring. -/
def detect_service (path : String) : Service :=
  if strContains path "/chutes/" then .chutes
  else if strContains path "/desearch/" then .desearch
  else .other

/-- The possible outcomes of `json.loads` on a request body, as far as
`_extract_run_id` can observe them. -/
inductive BodyParse where
  | empty
  | malformed
  | nonObject
  | object (run_id : Option String)
deriving DecidableEq

/-- `CostProxyHandler._extract_run_id`: empty bodies and `JSONDecodeError`
yield `None`; a top-level object yields its `run_id` field (possibly absent);
a valid-JSON body whose top level is not an object makes `data.get("run_id")`
raise `AttributeError`, which the method does not catch. -/
def extract_run_id : BodyParse → Except String (Option String)
  | .empty => .ok none
  | .malformed => .ok none
  | .object rid => .ok rid
  | .nonObject => .error "AttributeError"

/-- Python truthiness of the extracted run_id as used in
`if run_id and ...`: `None` and the empty string are falsy. -/
def truthyRunId : Option String → Option String
  | none => none
  | some s => if s = "" then none else some s

/-- JSON values, as needed for the 402 response body. -/
inductive JVal where
  | str (v : String)
  | num (v : ℚ)
  | bool (v : Bool)
  | obj (fields : List (String × JVal))

/-- The per-service slice of the `get_budget_status` dict, as JSON. -/
def serviceStatusJVal (st : CostTracker.ServiceStatus) : JVal :=
  .obj [("cost", .num st.cost), ("budget", .num st.budget), ("over", .bool st.over)]

/-- The `get_budget_status` dict, as JSON. -/
def budgetStatusJVal (st : CostTracker.BudgetStatus) : JVal :=
  .obj [("chutes", serviceStatusJVal st.chutes), ("desearch", serviceStatusJVal st.desearch)]

/-- `status.get(service, {})` in `_send_budget_exceeded`: the status dict has
keys `"chutes"` and `"desearch"` only. -/
def statusLookup (st : CostTracker.BudgetStatus) : Service → Option CostTracker.ServiceStatus
  | .chutes => some st.chutes
  | .desearch => some st.desearch
  | .other => none

/-- The JSON body built by `CostProxyHandler._send_budget_exceeded`
(field order as in the source dict literal). -/
def budget_exceeded_body (run_id : String) (service : Service)
    (status : CostTracker.BudgetStatus) : List (String × JVal) :=
  [("error", .str "Budget exceeded"),
   ("detail", .str ("Run " ++ run_id ++ " has exceeded the " ++ service.name
      ++ " cost budget")),
   ("service", .str service.name),
   ("current_cost", .num (((statusLookup status service).map (·.cost)).getD 0)),
   ("budget", .num (((statusLookup status service).map (·.budget)).getD 0)),
   ("all_services", budgetStatusJVal status)]

/-- The possible outcomes of `_extract_cost` on the upstream response body:
a rational value (`0.0` for empty, malformed, field-less or non-numeric
bodies) or an uncaught `AttributeError` for a valid-JSON non-object body. -/
inductive CostParse where
  | value (c : ℚ)
  | nonObjectRaise
deriving DecidableEq

/-- The behaviour of the upstream gateway for one forwarded request. -/
inductive UpstreamBehavior where
  | responds (status : Nat) (cost : CostParse)
  | transportError (msg : String)
deriving DecidableEq

/-- What the handler sends back to the agent. -/
inductive ProxyOutcome where
  | budgetExceeded (body : List (String × JVal))
  | relayed (status : Nat)
  | proxyError (msg : String)

/-- The HTTP status code of each outcome (`send_response(402)`, the relayed
upstream code, or `_send_error(500, ...)`). -/
def ProxyOutcome.httpStatus : ProxyOutcome → Nat
  | .budgetExceeded _ => 402
  | .relayed st => st
  | .proxyError _ => 500

structure ProxyRequest where
  path : String
  body : BodyParse

/-- Result of one `_forward_request` call: the response to the agent, whether
the upstream gateway was contacted, and the ledger state afterwards. -/
structure ProxyStepResult where
  outcome : ProxyOutcome
  upstreamCalled : Bool
  tracker : CostTracker

/-- The forwarding half of `_forward_request` (from the `requests.request`
call onward): relay the upstream response, charging the ledger first when the
request is tagged and the extracted cost is positive; a transport failure or
an uncaught cost-extraction error becomes a 500. -/
def forwardUpstream (t : CostTracker) (rid : Option String) (service : Service)
    (up : UpstreamBehavior) : ProxyStepResult :=
  match up with
  | .transportError msg => ⟨.proxyError ("Proxy error: " ++ msg), true, t⟩
  | .responds status cost =>
    match cost with
    | .nonObjectRaise => ⟨.proxyError "Proxy error: AttributeError", true, t⟩
    | .value c =>
      match rid with
      | some r =>
        if c > 0 then ⟨.relayed status, true, (t.add_cost r service c).2⟩
        else ⟨.relayed status, true, t⟩
      | none => ⟨.relayed status, true, t⟩

/-- `CostProxyHandler._forward_request`: extract the run_id, classify the
path, run the pre-admission budget check for tagged requests, and forward. -/
def forward_request (t : CostTracker) (req : ProxyRequest) (up : UpstreamBehavior) :
    ProxyStepResult :=
  let service := detect_service req.path
  match extract_run_id req.body with
  | .error e => ⟨.proxyError ("Proxy error: " ++ e), false, t⟩
  | .ok rid0 =>
    match truthyRunId rid0 with
    | some r =>
      if t.is_over_budget r (some service) then
        ⟨.budgetExceeded (budget_exceeded_body r service (t.get_budget_status r)),
          false, t⟩
      else forwardUpstream t (some r) service up
    | none => forwardUpstream t none service up

/-- The 402 short-circuit of `_forward_request`: a tagged request whose
service class is over budget at entry reduces to `_send_budget_exceeded`. -/
theorem forward_request_over_budget (t : CostTracker) (path r : String)
    (up : UpstreamBehavior) (hr : r ≠ "")
    (hover : t.is_over_budget r (some (detect_service path)) = true) :
    forward_request t ⟨path, .object (some r)⟩ up
      = ⟨.budgetExceeded (budget_exceeded_body r (detect_service path)
          (t.get_budget_status r)), false, t⟩ := by
  simp only [forward_request, extract_run_id, truthyRunId, if_neg hr, hover, if_true]

/-- C2: a request tagged with a known run_id whose service class is over
budget at entry is answered with HTTP 402 and the budget-exceeded JSON body,
whose fields are exactly `error`, `detail`, `service`, `current_cost`,
`budget`, `all_services`; the upstream gateway is not contacted and the
ledger is unchanged. -/
theorem proxy_rejects_over_budget (t : CostTracker) (path r : String)
    (up : UpstreamBehavior) (hr : r ≠ "") (_hknown : t.known r = true)
    (hover : t.is_over_budget r (some (detect_service path)) = true) :
    (forward_request t ⟨path, .object (some r)⟩ up).outcome
        = .budgetExceeded (budget_exceeded_body r (detect_service path)
            (t.get_budget_status r)) ∧
    (forward_request t ⟨path, .object (some r)⟩ up).outcome.httpStatus = 402 ∧
    (forward_request t ⟨path, .object (some r)⟩ up).upstreamCalled = false ∧
    (forward_request t ⟨path, .object (some r)⟩ up).tracker = t ∧
    (budget_exceeded_body r (detect_service path) (t.get_budget_status r)).map Prod.fst
        = ["error", "detail", "service", "current_cost", "budget", "all_services"] := by
  rw [forward_request_over_budget t path r up hr hover]
  exact ⟨rfl, rfl, rfl, rfl, rfl⟩

/-- Witness for `proxy_rejects_over_budget`: a run over its chutes budget
requesting a chutes path. -/
theorem proxy_rejects_over_budget_witness :
    (forward_request (⟨2, 10, [("r", ⟨3, 0, 0⟩)]⟩ : CostTracker)
        ⟨"/api/gateway/chutes/chat", .object (some "r")⟩
        (.responds 200 (.value 0))).upstreamCalled = false ∧
    (forward_request (⟨2, 10, [("r", ⟨3, 0, 0⟩)]⟩ : CostTracker)
        ⟨"/api/gateway/chutes/chat", .object (some "r")⟩
        (.responds 200 (.value 0))).outcome.httpStatus = 402 := by
  have h := proxy_rejects_over_budget (⟨2, 10, [("r", ⟨3, 0, 0⟩)]⟩ : CostTracker)
    "/api/gateway/chutes/chat" "r" (.responds 200 (.value 0))
    (by decide)
    (by decide)
    (by norm_num [CostTracker.is_over_budget, detect_service, strContains,
      listContains, leadingMatch, findRun])
  exact ⟨h.2.2.1, h.2.1⟩

/-- C3: (a) a tagged request whose (run, service-class) pair is over budget
at entry is never forwarded upstream; (b) if the pair is not over budget at
entry the upstream response is relayed to the agent even when the charge it
carries pushes the pair over budget, and in that case every next tagged
request for the same pair is rejected with 402 without contacting
upstream. -/
theorem proxy_budget_temporal :
    (∀ (t : CostTracker) (path r : String) (up : UpstreamBehavior), r ≠ "" →
      t.is_over_budget r (some (detect_service path)) = true →
      (forward_request t ⟨path, .object (some r)⟩ up).upstreamCalled = false) ∧
    (∀ (t : CostTracker) (path r : String) (st : Nat) (c : ℚ), r ≠ "" →
      t.is_over_budget r (some (detect_service path)) = false →
      (forward_request t ⟨path, .object (some r)⟩
          (.responds st (.value c))).outcome = .relayed st ∧
      (forward_request t ⟨path, .object (some r)⟩
          (.responds st (.value c))).upstreamCalled = true ∧
      (((forward_request t ⟨path, .object (some r)⟩
            (.responds st (.value c))).tracker.is_over_budget r
          (some (detect_service path)) = true) →
        ∀ (path2 : String) (up2 : UpstreamBehavior),
          detect_service path2 = detect_service path →
          (forward_request (forward_request t ⟨path, .object (some r)⟩
              (.responds st (.value c))).tracker
            ⟨path2, .object (some r)⟩ up2).upstreamCalled = false ∧
          (forward_request (forward_request t ⟨path, .object (some r)⟩
              (.responds st (.value c))).tracker
            ⟨path2, .object (some r)⟩ up2).outcome.httpStatus = 402)) := by
  constructor
  · intro t path r up hr hover
    simp only [forward_request, extract_run_id, truthyRunId, if_neg hr, hover, if_true]
  · intro t path r st c hr hnot
    have hstep : forward_request t ⟨path, .object (some r)⟩ (.responds st (.value c))
        = forwardUpstream t (some r) (detect_service path) (.responds st (.value c)) := by
      simp only [forward_request, extract_run_id, truthyRunId, if_neg hr, hnot,
        Bool.false_eq_true, if_false]
    refine ⟨?_, ?_, ?_⟩
    · rw [hstep]; unfold forwardUpstream
      by_cases hc : c > 0 <;> simp [hc]
    · rw [hstep]; unfold forwardUpstream
      by_cases hc : c > 0 <;> simp [hc]
    · intro hover2 path2 up2 hpath2
      have hover2' : (forward_request t ⟨path, .object (some r)⟩
          (.responds st (.value c))).tracker.is_over_budget r
            (some (detect_service path2)) = true := by rw [hpath2]; exact hover2
      rw [forward_request_over_budget _ path2 r up2 hr hover2']
      exact ⟨rfl, rfl⟩

/-- Witness for `proxy_budget_temporal`: with a fresh ledger (chutes budget
2) a chutes request carrying cost 3 is relayed, and the next chutes request
for the same run is not forwarded. -/
theorem proxy_budget_temporal_witness :
    ((forward_request (CostTracker.init 2 10) ⟨"/x/chutes/y", .object (some "r")⟩
        (.responds 200 (.value 3))).outcome = .relayed 200) ∧
    ((forward_request (forward_request (CostTracker.init 2 10)
          ⟨"/x/chutes/y", .object (some "r")⟩ (.responds 200 (.value 3))).tracker
        ⟨"/x/chutes/y", .object (some "r")⟩
        (.responds 200 (.value 3))).upstreamCalled = false) := by
  have h := proxy_budget_temporal.2 (CostTracker.init 2 10) "/x/chutes/y" "r" 200 3
    (by decide) (by rfl)
  have hover2 : (forward_request (CostTracker.init 2 10)
      ⟨"/x/chutes/y", .object (some "r")⟩ (.responds 200 (.value 3))).tracker.is_over_budget
        "r" (some (detect_service "/x/chutes/y")) = true := by
    norm_num [forward_request, extract_run_id, truthyRunId, forwardUpstream,
      detect_service, strContains, listContains, leadingMatch,
      CostTracker.is_over_budget, CostTracker.add_cost, CostTracker.initRun,
      CostTracker.init, findRun, setRun, ServiceCosts.zero, ServiceCosts.get,
      ServiceCosts.set, if_neg (show (("r" : String) = "") -> False by decide)]
  exact ⟨h.1, (h.2.2 hover2 "/x/chutes/y" (.responds 200 (.value 3)) rfl).1⟩

/-- C8 counterexample: a request body that is valid JSON with a non-object
top level (for instance `[]`) carries no parseable top-level run_id, yet the
proxy does not forward it: the uncaught `AttributeError` raised by
`data.get("run_id")` in `_extract_run_id` is turned into a 500 response and
the upstream gateway is never contacted. -/
theorem untagged_nonobject_counterexample :
    (forward_request (CostTracker.init 2 10) ⟨"/health", .nonObject⟩
        (.responds 200 (.value 0))).upstreamCalled = false ∧
    (forward_request (CostTracker.init 2 10) ⟨"/health", .nonObject⟩
        (.responds 200 (.value 0))).outcome.httpStatus = 500 := ⟨rfl, rfl⟩

theorem forwardUpstream_untagged (t : CostTracker) (service : Service)
    (up : UpstreamBehavior) :
    (forwardUpstream t none service up).upstreamCalled = true ∧
    (forwardUpstream t none service up).tracker = t := by
  cases up with
  | transportError m => exact ⟨rfl, rfl⟩
  | responds st c => cases c <;> exact ⟨rfl, rfl⟩

/-- C8 amended: requests whose body is empty, malformed JSON, or a JSON
object with no usable (truthy) `run_id` are forwarded with no admission check
(for any ledger state, including over-budget ones) and charge nothing;
but a valid-JSON body whose top level is not an object is answered with a
500 proxy error without contacting upstream. -/
theorem untagged_request_handling :
    (∀ (t : CostTracker) (path : String) (b : BodyParse) (up : UpstreamBehavior),
      (b = .empty ∨ b = .malformed ∨ b = .object none ∨ b = .object (some "")) →
      (forward_request t ⟨path, b⟩ up).upstreamCalled = true ∧
      (forward_request t ⟨path, b⟩ up).tracker = t ∧
      ∀ (st : Nat) (c : ℚ),
        (forward_request t ⟨path, b⟩ (.responds st (.value c))).outcome = .relayed st) ∧
    (∀ (t : CostTracker) (path : String) (up : UpstreamBehavior),
      (forward_request t ⟨path, .nonObject⟩ up).upstreamCalled = false ∧
      (forward_request t ⟨path, .nonObject⟩ up).tracker = t ∧
      (forward_request t ⟨path, .nonObject⟩ up).outcome.httpStatus = 500) := by
  constructor
  · intro t path b up hb
    have hred : ∀ u : UpstreamBehavior, forward_request t ⟨path, b⟩ u
        = forwardUpstream t none (detect_service path) u := by
      intro u
      rcases hb with rfl | rfl | rfl | rfl <;> rfl
    rw [hred up]
    refine ⟨(forwardUpstream_untagged t _ up).1, (forwardUpstream_untagged t _ up).2, ?_⟩
    intro st c
    rw [hred (.responds st (.value c))]
    rfl
  · intro t path up
    exact ⟨rfl, rfl, rfl⟩

/-- Witness for `untagged_request_handling`: a malformed body is forwarded
untouched even though the ledger has the run over budget. -/
theorem untagged_request_handling_witness :
    (forward_request (⟨2, 10, [("r", ⟨3, 0, 0⟩)]⟩ : CostTracker)
        ⟨"/x/chutes/y", .malformed⟩ (.responds 200 (.value 5))).upstreamCalled = true ∧
    (forward_request (⟨2, 10, [("r", ⟨3, 0, 0⟩)]⟩ : CostTracker)
        ⟨"/x/chutes/y", .malformed⟩ (.responds 200 (.value 5))).tracker
      = (⟨2, 10, [("r", ⟨3, 0, 0⟩)]⟩ : CostTracker) := by
  have h := untagged_request_handling.1 (⟨2, 10, [("r", ⟨3, 0, 0⟩)]⟩ : CostTracker)
    "/x/chutes/y" .malformed (.responds 200 (.value 5)) (Or.inr (Or.inl rfl))
  exact ⟨h.1, h.2.1⟩

/-! ### Sandbox data models (`src/backend/sandbox/models.py`) -/

inductive SandboxErrorType where
  | timeout
  | container_error
  | invalid_output
  | agent_error
  | budget_exceeded
  | queue_full
deriving DecidableEq, Repr

/-- `AgentOutput`: the validated agent output document. -/
structure AgentOut where
  event_id : String
  prediction : ℚ
  reasoning : Option String
deriving DecidableEq, Repr

/-- `SandboxResult` (defaults as in the pydantic model). -/
structure SandboxResult where
  status : String
  output : Option AgentOut := none
  logs : String := ""
  error : Option String := none
  traceback : Option String := none
  error_type : Option SandboxErrorType := none
  cost : ℚ := 0
deriving DecidableEq, Repr

/-! ### `SandboxManager.run_agent` (`src/sandbox/manager.py`, lines 159-236)

The Docker interaction inside the `try` block is abstracted into how the
attempt ends: `_run_container` returning a `SandboxResult` (success, agent
error, timeout, container error, invalid output — it catches its own
exceptions), or an exception escaping the workspace setup / container run,
which the `except` clause turns into a container-error result.  In both
cases `run_agent` attaches `cost_proxy.get_cost(run_id)` to the result and
the `finally` clause clears the run from the ledger. -/

inductive RunAgentExec where
  | completed (r : SandboxResult)
  | raised (msg : String)

def run_agent (agent_code : String) (event_data_is_dict : Bool) (run_id : String)
    (exec : RunAgentExec) (ledger : CostTracker) : SandboxResult × CostTracker :=
  if agent_code = "" then
    ({ status := "error", error := some "agent_code cannot be empty",
       error_type := some .invalid_output }, ledger)
  else if event_data_is_dict = false then
    ({ status := "error", error := some "event_data must be a dictionary",
       error_type := some .invalid_output }, ledger)
  else
    match exec with
    | .completed r =>
      ({ r with cost := ledger.get_cost run_id none }, ledger.clear run_id)
    | .raised msg =>
      ({ status := "error", error := some msg, error_type := some .container_error,
         cost := ledger.get_cost run_id none }, ledger.clear run_id)

/-- C9: for every job that passes input validation, on every exit path
(normal completion with any status, timeout, container error, or a raised
exception) the returned result carries the ledger total for its run at
termination, and afterwards the ledger entry is released, so `get_cost`
returns 0 for the run (with or without a service argument). -/
theorem release_on_terminate (agent_code : String) (event_data_is_dict : Bool)
    (run_id : String) (exec : RunAgentExec) (ledger : CostTracker)
    (hcode : agent_code ≠ "") (hdict : event_data_is_dict = true) :
    (run_agent agent_code event_data_is_dict run_id exec ledger).1.cost
        = ledger.get_cost run_id none ∧
    (run_agent agent_code event_data_is_dict run_id exec ledger).2.get_cost run_id none = 0 ∧
    ∀ s : Service,
      (run_agent agent_code event_data_is_dict run_id exec ledger).2.get_cost
        run_id (some s) = 0 := by
  subst hdict
  unfold run_agent
  rw [if_neg hcode]
  cases exec with
  | completed r =>
    exact ⟨rfl, ledger.get_cost_clear_self run_id none,
      fun s => ledger.get_cost_clear_self run_id (some s)⟩
  | raised msg =>
    exact ⟨rfl, ledger.get_cost_clear_self run_id none,
      fun s => ledger.get_cost_clear_self run_id (some s)⟩

/-- Witness for `release_on_terminate`: a ledger holding costs 1 (chutes) and
2 (desearch) for the run yields a reported cost of 3 and a zeroed ledger. -/
theorem release_on_terminate_witness :
    (run_agent "code" true "rid" (.completed { status := "success" })
        (⟨2, 10, [("rid", ⟨1, 2, 0⟩)]⟩ : CostTracker)).1.cost = 3 ∧
    (run_agent "code" true "rid" (.completed { status := "success" })
        (⟨2, 10, [("rid", ⟨1, 2, 0⟩)]⟩ : CostTracker)).2.get_cost "rid" none = 0 := by
  have h := release_on_terminate "code" true "rid" (.completed { status := "success" })
    (⟨2, 10, [("rid", ⟨1, 2, 0⟩)]⟩ : CostTracker) (by decide) rfl
  refine ⟨h.1.trans ?_, h.2.1⟩
  norm_num [CostTracker.get_cost, findRun, ServiceCosts.total]

/-! ### Predictor data models (`src/backend/predictor/models.py`) -/

structure AgentPrediction where
  miner_uid : ℤ
  rank : ℤ
  version_id : String
  prediction : ℚ
  reasoning : Option String
  cost : ℚ
deriving DecidableEq, Repr

/-- `AgentFailure`: miner_uid, rank, error message and optional error kind —
and nothing else; in particular no cost field. -/
structure AgentFailure where
  miner_uid : ℤ
  rank : ℤ
  error : String
  error_type : Option SandboxErrorType
deriving DecidableEq, Repr

structure PredictionResult where
  status : String
  prediction : Option ℚ := none
  agent_predictions : List AgentPrediction := []
  failures : List AgentFailure := []
  total_cost : ℚ := 0
  error : Option String := none
deriving DecidableEq, Repr

/-! ### The orchestrator (`src/predictor/predictor.py`) -/

/-- What `AgentCollector.get_agent` produced for a miner: nothing, or a
version id plus the code blob. -/
inductive CollectorFetch where
  | missing
  | found (version_id : String) (code : String)
deriving DecidableEq, Repr

/-- `_run_single_agent` returns exactly one of a prediction or a failure. -/
inductive AgentOutcome where
  | success (p : AgentPrediction)
  | failure (f : AgentFailure)
deriving DecidableEq, Repr

/-- Python's `x or "Unknown error"` on an optional string (`None` and the
empty string are falsy). -/
def orUnknown (o : Option String) : String :=
  match o with
  | none => "Unknown error"
  | some s => if s = "" then "Unknown error" else s

/-- `Predictor._run_single_agent` (lines 61-139): fetch the agent code, run
the sandbox, and produce a prediction (carrying the sandbox cost) or a
failure (carrying no cost). -/
def run_single_agent (uid rank : ℤ) (fetch : CollectorFetch)
    (sandbox : SandboxResult) : AgentOutcome :=
  match fetch with
  | .missing =>
    .failure ⟨uid, rank, "No agent code available for miner " ++ toString uid, none⟩
  | .found version_id _code =>
    match sandbox.output with
    | some out =>
      if sandbox.status = "success" then
        .success ⟨uid, rank, version_id, out.prediction, out.reasoning, sandbox.cost⟩
      else .failure ⟨uid, rank, orUnknown sandbox.error, sandbox.error_type⟩
    | none => .failure ⟨uid, rank, orUnknown sandbox.error, sandbox.error_type⟩

/-- `Predictor.predict_champion` (lines 141-183), with its inputs — the
rank-0 leaderboard entry, the fetched code, the sandbox run — as
parameters. -/
def predict_champion (rank0 : Option (ℤ × String)) (fetch : CollectorFetch)
    (sandbox : SandboxResult) : PredictionResult :=
  match rank0 with
  | none =>
    { status := "error", error := some "No miners available in leaderboard",
      total_cost := 0 }
  | some (uid, _hotkey) =>
    match run_single_agent uid 0 fetch sandbox with
    | .success p =>
      { status := "success", prediction := some p.prediction,
        agent_predictions := [p], total_cost := p.cost }
    | .failure f =>
      { status := "error", failures := [f], error := some f.error, total_cost := 0 }

/-- The successful predictions collected by the `as_completed` loop of
`predict_council`, in completion order. -/
def successesOf (outs : List AgentOutcome) : List AgentPrediction :=
  outs.filterMap fun o => match o with
    | .success p => some p
    | .failure _ => none

/-- The failures collected by the `as_completed` loop of `predict_council`,
in completion order. -/
def failuresOf (outs : List AgentOutcome) : List AgentFailure :=
  outs.filterMap fun o => match o with
    | .success _ => none
    | .failure f => some f

/-- The quorum-shortfall message of `predict_council`. -/
def council_shortfall_msg (n : Nat) : String :=
  "Not enough successful predictions (" ++ toString n ++ "/3, need at least 2)"

/-- `Predictor.predict_council`, lines 219-270: the fold of the per-agent
outcomes (in completion order) into the terminal response — partition into
predictions and failures, sum the successful costs, and either report the
quorum shortfall or average the predictions. -/
def predict_council_aggregate (outs : List AgentOutcome) : PredictionResult :=
  let predictions := successesOf outs
  let failures := failuresOf outs
  let total_cost := (predictions.map AgentPrediction.cost).sum
  if predictions.length < 2 then
    { status := "error", agent_predictions := predictions, failures := failures,
      error := some (council_shortfall_msg predictions.length),
      total_cost := total_cost }
  else
    { status := "success",
      prediction := some ((predictions.map AgentPrediction.prediction).sum
        / (predictions.length : ℚ)),
      agent_predictions := predictions, failures := failures,
      total_cost := total_cost }

theorem council_shortfall_msg_starts (n : Nat) :
    ∃ tail : String, council_shortfall_msg n
      = "Not enough successful predictions" ++ tail := by
  refine ⟨" (" ++ toString n ++ "/3, need at least 2)", ?_⟩
  unfold council_shortfall_msg
  have h : "Not enough successful predictions ("
      = "Not enough successful predictions" ++ " (" := by decide
  rw [h]
  simp only [String.append_assoc]

/-- C1: the quorum (council) fold returns success iff at least two agent
runs succeeded; it reports exactly the successes and exactly the failures;
its total cost is the sum of the successful agents' costs; on success the
prediction is the arithmetic mean of the successful predictions; and on a
shortfall the status is error with a message that contains (indeed starts
with) "Not enough successful predictions", still carrying both lists. -/
theorem quorum_aggregation (outs : List AgentOutcome) :
    ((predict_council_aggregate outs).status = "success"
        ↔ 2 ≤ (successesOf outs).length) ∧
    (predict_council_aggregate outs).agent_predictions = successesOf outs ∧
    (predict_council_aggregate outs).failures = failuresOf outs ∧
    (predict_council_aggregate outs).total_cost
        = ((successesOf outs).map AgentPrediction.cost).sum ∧
    (2 ≤ (successesOf outs).length →
      (predict_council_aggregate outs).prediction
        = some (((successesOf outs).map AgentPrediction.prediction).sum
            / ((successesOf outs).length : ℚ))) ∧
    ((successesOf outs).length < 2 →
      (predict_council_aggregate outs).status = "error" ∧
      ∃ tail : String, (predict_council_aggregate outs).error
        = some ("Not enough successful predictions" ++ tail)) := by
  by_cases h : (successesOf outs).length < 2
  · have hstep : predict_council_aggregate outs
        = { status := "error", agent_predictions := successesOf outs,
            failures := failuresOf outs,
            error := some (council_shortfall_msg (successesOf outs).length),
            total_cost := ((successesOf outs).map AgentPrediction.cost).sum } := by
      simp only [predict_council_aggregate, if_pos h]
    rw [hstep]
    refine ⟨?_, rfl, rfl, rfl, ?_, ?_⟩
    · exact ⟨fun hs => ((by decide : ("error" : String) ≠ "success") hs).elim,
        fun h2 => absurd h2 (by omega)⟩
    · intro h2; exact absurd h2 (by omega)
    · intro _
      obtain ⟨tl, htl⟩ := council_shortfall_msg_starts (successesOf outs).length
      exact ⟨rfl, tl, by rw [htl]⟩
  · have hstep : predict_council_aggregate outs
        = { status := "success",
            prediction := some (((successesOf outs).map AgentPrediction.prediction).sum
              / ((successesOf outs).length : ℚ)),
            agent_predictions := successesOf outs, failures := failuresOf outs,
            total_cost := ((successesOf outs).map AgentPrediction.cost).sum } := by
      simp only [predict_council_aggregate, if_neg h]
    rw [hstep]
    refine ⟨⟨fun _ => by omega, fun _ => rfl⟩, rfl, rfl, rfl, fun _ => rfl, ?_⟩
    intro hlt; exact absurd hlt h

/-- Witness for `quorum_aggregation`: predictions 0.60 (cost 0.01) and
0.80 (cost 0.02) plus one timeout yield success, mean 0.70, cost 0.03. -/
theorem quorum_aggregation_witness :
    (predict_council_aggregate
        [.success ⟨1, 0, "v1", 3/5, none, 1/100⟩,
         .failure ⟨3, 2, "Timeout", some .timeout⟩,
         .success ⟨2, 1, "v2", 4/5, none, 2/100⟩]).status = "success" ∧
    (predict_council_aggregate
        [.success ⟨1, 0, "v1", 3/5, none, 1/100⟩,
         .failure ⟨3, 2, "Timeout", some .timeout⟩,
         .success ⟨2, 1, "v2", 4/5, none, 2/100⟩]).prediction = some (7/10) ∧
    (predict_council_aggregate
        [.success ⟨1, 0, "v1", 3/5, none, 1/100⟩,
         .failure ⟨3, 2, "Timeout", some .timeout⟩,
         .success ⟨2, 1, "v2", 4/5, none, 2/100⟩]).total_cost = 3/100 := by
  have h := quorum_aggregation
    [.success ⟨1, 0, "v1", 3/5, none, 1/100⟩,
     .failure ⟨3, 2, "Timeout", some .timeout⟩,
     .success ⟨2, 1, "v2", 4/5, none, 2/100⟩]
  have hlen : 2 ≤ (successesOf
      [.success ⟨1, 0, "v1", 3/5, none, 1/100⟩,
       .failure ⟨3, 2, "Timeout", some .timeout⟩,
       .success ⟨2, 1, "v2", 4/5, none, 2/100⟩]).length := by
    simp [successesOf]
  refine ⟨h.1.mpr hlen, ?_, ?_⟩
  · rw [h.2.2.2.2.1 hlen]
    norm_num [successesOf, List.filterMap_cons, List.sum_cons, List.sum_nil]
  · rw [h.2.2.2.1]
    norm_num [successesOf, List.filterMap_cons, List.sum_cons, List.sum_nil]

/-- `Predictor.predict_selected` (lines 272-320), with its inputs — the
leaderboard entry found for the requested miner UID, the rank assigned by
`get_rank_by_uid` (defaulted to -1 when missing), the fetched code and the
sandbox run — as parameters. -/
def predict_selected (miner : Option (ℤ × String)) (rank : Option ℤ)
    (fetch : CollectorFetch) (sandbox : SandboxResult) (miner_uid : ℤ) :
    PredictionResult :=
  match miner with
  | none =>
    { status := "error",
      error := some ("Miner with UID " ++ toString miner_uid
        ++ " not found in leaderboard"),
      total_cost := 0 }
  | some (uid, _hotkey) =>
    match run_single_agent uid (rank.getD (-1)) fetch sandbox with
    | .success p =>
      { status := "success", prediction := some p.prediction,
        agent_predictions := [p], total_cost := p.cost }
    | .failure f =>
      { status := "error", failures := [f], error := some f.error, total_cost := 0 }

/-- C10: whenever champion mode returns status error, the reported total
cost is exactly 0 even if the failed sandbox run accrued cost; the same
holds for by-UID (selected) mode; an `AgentFailure` is fully determined by
miner_uid, rank, error and error_type (it carries no cost field); and in
council mode the total cost only ever sums the successful agents' costs —
so in every mode the failed run's partial cost is dropped. -/
theorem champion_error_cost :
    (∀ (rank0 : Option (ℤ × String)) (fetch : CollectorFetch)
        (sandbox : SandboxResult),
      (predict_champion rank0 fetch sandbox).status = "error" →
      (predict_champion rank0 fetch sandbox).total_cost = 0) ∧
    (∀ (miner : Option (ℤ × String)) (rank : Option ℤ) (fetch : CollectorFetch)
        (sandbox : SandboxResult) (uid : ℤ),
      (predict_selected miner rank fetch sandbox uid).status = "error" →
      (predict_selected miner rank fetch sandbox uid).total_cost = 0) ∧
    (∀ f g : AgentFailure, f.miner_uid = g.miner_uid → f.rank = g.rank →
      f.error = g.error → f.error_type = g.error_type → f = g) ∧
    (∀ outs : List AgentOutcome,
      (predict_council_aggregate outs).total_cost
        = ((successesOf outs).map AgentPrediction.cost).sum) := by
  refine ⟨?_, ?_, ?_, ?_⟩
  · intro rank0 fetch sandbox herr
    cases rank0 with
    | none => rfl
    | some uh =>
      obtain ⟨uid, hk⟩ := uh
      cases hro : run_single_agent uid 0 fetch sandbox with
      | success p => simp [predict_champion, hro] at herr
      | failure f => simp [predict_champion, hro]
  · intro miner rank fetch sandbox uid0 herr
    cases miner with
    | none => rfl
    | some uh =>
      obtain ⟨uid, hk⟩ := uh
      cases hro : run_single_agent uid (rank.getD (-1)) fetch sandbox with
      | success p => simp [predict_selected, hro] at herr
      | failure f => simp [predict_selected, hro]
  · intro f g h1 h2 h3 h4
    cases f; cases g
    dsimp at h1 h2 h3 h4
    subst h1; subst h2; subst h3; subst h4
    rfl
  · intro outs
    by_cases h : (successesOf outs).length < 2
    · simp only [predict_council_aggregate, if_pos h]
    · simp only [predict_council_aggregate, if_neg h]

/-- Witness for `champion_error_cost`: a failed champion run and a failed
by-UID run that accrued cost 9 both still report total cost 0. -/
theorem champion_error_cost_witness :
    (predict_champion (some (5, "hk")) (.found "v" "c")
        { status := "error", error := some "boom", cost := 9 }).total_cost = 0 ∧
    (predict_selected (some (5, "hk")) (some 4) (.found "v" "c")
        { status := "error", error := some "boom", cost := 9 } 5).total_cost = 0 :=
  ⟨champion_error_cost.1 (some (5, "hk")) (.found "v" "c")
      { status := "error", error := some "boom", cost := 9 } rfl,
    champion_error_cost.2.1 (some (5, "hk")) (some 4) (.found "v" "c")
      { status := "error", error := some "boom", cost := 9 } 5 rfl⟩

/-! ### Scheduler admission control -/

/-- Modelled from the spec: the admission fast path of the sandbox
scheduler (`SandboxManager.run_agent` in its queueing form, exercised by
`src/sandbox/tests/test_manager.py` via `MAX_CONCURRENT_AGENTS`,
`MAX_QUEUED_AGENTS` and `_run_agent_internal`, but absent from
`src/sandbox/manager.py`): `MAX_CONCURRENT` and `MAX_QUEUED` are immutable
per instance. -/
structure SchedulerConfig where
  max_concurrent : Nat
  max_queued : Nat
deriving DecidableEq, Repr

/-- Modelled from the spec: the queue-full message
`"Server busy. Max N running, M queued."`. -/
def queue_full_message (cfg : SchedulerConfig) : String :=
  "Server busy. Max " ++ toString cfg.max_concurrent ++ " running, "
    ++ toString cfg.max_queued ++ " queued."

/-- Modelled from the spec: the atomic admission test of `submit` — if the
number of admitted jobs (running plus queued) is already at least
`MAX_CONCURRENT + MAX_QUEUED`, return immediately a queue-full failure with
partial cost 0; otherwise admission proceeds (modelled as `none`, nothing
returned synchronously). -/
def submit_admission (cfg : SchedulerConfig) (admitted : Nat) : Option SandboxResult :=
  if cfg.max_concurrent + cfg.max_queued ≤ admitted then
    some { status := "error", error := some (queue_full_message cfg),
           error_type := some .queue_full, cost := 0 }
  else none

/-- C5: submitting while admitted ≥ MAX_CONCURRENT + MAX_QUEUED returns
immediately a queue-full failure with partial cost 0 whose message starts
with "Server busy". -/
theorem queue_full_fast_path (cfg : SchedulerConfig) (admitted : Nat)
    (h : cfg.max_concurrent + cfg.max_queued ≤ admitted) :
    ∃ r : SandboxResult, submit_admission cfg admitted = some r ∧
      r.status = "error" ∧ r.error_type = some .queue_full ∧ r.cost = 0 ∧
      ∃ tail : String, r.error = some ("Server busy" ++ tail) := by
  refine ⟨_, by rw [submit_admission, if_pos h], rfl, rfl, rfl, ?_⟩
  refine ⟨". Max " ++ toString cfg.max_concurrent ++ " running, "
    ++ toString cfg.max_queued ++ " queued.", ?_⟩
  show some (queue_full_message cfg) = _
  unfold queue_full_message
  have h2 : "Server busy. Max " = "Server busy" ++ ". Max " := by decide
  rw [h2]
  simp only [String.append_assoc]

/-- Witness for `queue_full_fast_path` at MAX_CONCURRENT = MAX_QUEUED = 2
with 4 admitted jobs. -/
theorem queue_full_fast_path_witness :
    ∃ r : SandboxResult, submit_admission ⟨2, 2⟩ 4 = some r ∧
      r.error_type = some .queue_full ∧ r.cost = 0 := by
  obtain ⟨r, h1, _, h2, h3, _⟩ := queue_full_fast_path ⟨2, 2⟩ 4 (by norm_num)
  exact ⟨r, h1, h2, h3⟩

/-- Witness for `is_over_budget_characterization`: an unknown run is never
over budget. -/
theorem is_over_budget_characterization_witness :
    (CostTracker.init 2 10).is_over_budget "r" none = false :=
  (is_over_budget_characterization (CostTracker.init 2 10) "r").2.2.2.2 rfl none
